import Mathlib

/-!
cli-chat: command line LLM chat agent

A shallow embedding of the two translation units of the repository,
`src/main.cpp` (namespace `SrcMain`) and `src/src/main.cpp` (namespace
`SrcSrcMain`), together with the message model of `src/client.hpp`.

Conventions of the embedding.

* `std::string` is `String`; `std::vector<T>` is `List T`.
* A call of a C++ function ends in one of three ways, recorded by `Outcome`:
  a `return` statement ran, an exception left the function, or control
  reached the closing brace of the body of a value-returning function.  The
  last is undefined behaviour in C++: the source determines nothing about the
  program from that point on, so a run that gets there ends as
  `Exit.undefined` and the model says nothing about what follows.
* The state a function can touch is passed explicitly as a `World`: what was
  written to `std::cout`, the files on disk, and a ghost field `calls` that
  logs every function entered, in order.  Every embedded function appends its
  own entry to `calls` as its first action; nothing else in the model writes
  to that field.
* The command line is `argv : List String`, program name included, and
  `argc` is its length.
-/

namespace CliChat

/-! ## Message model (`src/client.hpp`, namespace `llm_client`) -/

/-- Message roles, `enum Role` of `client.hpp`. -/
inductive Role
  | SYSTEM
  | USER
  | ASSISTANT
  deriving DecidableEq, Repr

/-- Messages exchanged with the LLM engine, `struct Message`. -/
structure Message where
  role : Role
  message : String
  deriving DecidableEq, Repr

/-- Chat response, `struct Response`. -/
structure Response where
  content : String
  deriving DecidableEq, Repr

/-! ## Execution model -/

/-- How a call of a value-returning C++ function ends. -/
inductive Outcome (α : Type)
  /-- A `return v;` statement was executed. -/
  | returned (v : α)
  /-- An exception propagated out of the function. -/
  | raised (what : String)
  /-- Control reached the end of the body of a value-returning function and no
  `return` statement ran: undefined behaviour, there is no value to read. -/
  | fellOff
  deriving DecidableEq, Repr

/-- Functions of the program, as entries of the ghost call log. -/
inductive Call
  | print_usage
  | load_history
  | store_history (history : List Message)
  | reset_history
  | chat (prompt : String)
  | extract_code_blocks (text : String)
  deriving DecidableEq, Repr

/-- The state outside the local variables of a function. -/
structure World where
  /-- Lines written to `std::cout`, oldest first. -/
  out : List String
  /-- Files on disk, as pairs of path and content. -/
  files : List (String × String)
  /-- Ghost log of the functions entered, oldest first. -/
  calls : List Call
  deriving DecidableEq, Repr

/-- Append an entry to the ghost call log. -/
def World.enter (w : World) (c : Call) : World :=
  { w with calls := w.calls ++ [c] }

/-- A fresh process: nothing printed, nothing called, a given disk. -/
def World.start (files : List (String × String)) : World :=
  { out := [], files := files, calls := [] }

/-- How the process ends. -/
inductive Exit
  /-- Either `exit(n)` was called or `main` returned `n`. -/
  | status (n : Nat)
  /-- An exception left `main`, so `std::terminate` was called. -/
  | terminated
  /-- The run reached undefined behaviour; `world` of the run is the state at
  that point and nothing after it is determined by the source. -/
  | undefined
  deriving DecidableEq, Repr

/-- A finished run of `main`. -/
structure Run where
  exit : Exit
  world : World
  deriving DecidableEq, Repr

/-- C `strcmp(a, b) == 0`, written `!strcmp(a, b)` in the source. -/
def strcmpZero (a b : String) : Bool := a == b

/-- The value of `argv[i]`; only read at indices below `argc`. -/
def argvAt (argv : List String) (i : Nat) : String := argv.getD i ""

/-! ## `src/src/main.cpp` -/

namespace SrcSrcMain

/-- Source: `static void print_usage()`, one line written to `std::cout`. -/
def print_usage (w : World) : World :=
  let w := w.enter Call.print_usage
  { w with out := w.out ++ ["Usage: chat <text>"] }

/-- Source: `class Session`, whose only data member is `m_history`. -/
structure Session where
  m_history : List Message
  deriving DecidableEq, Repr

/-- Source: `Session::load_history()`, declared to return
`std::vector<Message>`; the body between its braces is empty. -/
def Session.load_history (w : World) : Outcome (List Message) × World :=
  let w := w.enter Call.load_history
  (Outcome.fellOff, w)

/-- Source: `Session::store_history(history)`, a `void` function with an
empty body. -/
def Session.store_history (history : List Message) (w : World) : World :=
  let w := w.enter (Call.store_history history)
  w

/-- Source: `Session::reset_history()`, a `void` function with an empty
body. -/
def Session.reset_history (w : World) : World :=
  let w := w.enter Call.reset_history
  w

/-- Source: the constructor `Session() { m_history = load_history(); }`: the
object exists only if `load_history` returned a value to assign. -/
def Session.new (w : World) : Outcome Session × World :=
  match Session.load_history w with
  | (Outcome.returned h, w) => (Outcome.returned { m_history := h }, w)
  | (Outcome.raised what, w) => (Outcome.raised what, w)
  | (Outcome.fellOff, w) => (Outcome.fellOff, w)

/-- Source: `Session::chat(prompt)`, declared to return `Response`; the body
holds three comments (join prompt with the history, run the prompt, process
output) and no statement. -/
def Session.chat (self : Session) (prompt : String) (w : World) :
    Outcome Response × Session × World :=
  let w := w.enter (Call.chat prompt)
  (Outcome.fellOff, self, w)

/-- Source: `extract_code_blocks(text)`, whose body is the single statement
`return std::vector<std::string>();`. -/
def extract_code_blocks (text : String) (w : World) : Outcome (List String) × World :=
  let w := w.enter (Call.extract_code_blocks text)
  (Outcome.returned [], w)

/-- Source: the loop of `main`,
`for (int i = 1; i < argc; ++i) { if (i == 1) prompt += " "; prompt += argv[i]; }`,
entered at index `i` with the text built so far. -/
def promptLoop (argv : List String) (i : Nat) (prompt : String) : String :=
  if i < argv.length then
    let prompt := if i == 1 then prompt ++ " " else prompt
    let prompt := prompt ++ argvAt argv i
    promptLoop argv (i + 1) prompt
  else
    prompt
termination_by argv.length - i

/-- Source: `std::string prompt;` followed by the loop started at `i = 1`. -/
def buildPrompt (argv : List String) : String :=
  promptLoop argv 1 ""

/-- Source: `main` of `src/src/main.cpp` from the line after `Session session;`
to its end, run with the constructed object: the `reset` test, the prompt
loop, `session.chat(prompt)` and `extract_code_blocks(response.content)`. -/
def mainWithSession (argv : List String) (session : Session) (w : World) : Run :=
  let argc := argv.length
  if argc == 2 && strcmpZero (argvAt argv 1) "reset" then
    let w := Session.reset_history w
    { exit := Exit.status 0, world := w }
  else
    let prompt := buildPrompt argv
    match session.chat prompt w with
    | (Outcome.raised _, _, w) => { exit := Exit.terminated, world := w }
    | (Outcome.fellOff, _, w) => { exit := Exit.undefined, world := w }
    | (Outcome.returned response, _, w) =>
      match extract_code_blocks response.content w with
      | (_, w) => { exit := Exit.status 0, world := w }

/-- Source: `int main(int argc, char* argv[])` of `src/src/main.cpp`: the usage
test with `exit(argc == 2)`, then `Session session;`, then the rest. -/
def main (argv : List String) (w : World) : Run :=
  let argc := argv.length
  if argc < 2 || strcmpZero (argvAt argv 1) "-h" || strcmpZero (argvAt argv 1) "--help" then
    let w := print_usage w
    { exit := Exit.status (if argc == 2 then 1 else 0), world := w }
  else
    match Session.new w with
    | (Outcome.raised _, w) => { exit := Exit.terminated, world := w }
    | (Outcome.fellOff, w) => { exit := Exit.undefined, world := w }
    | (Outcome.returned session, w) => mainWithSession argv session w

end SrcSrcMain

/-! ## `src/main.cpp` -/

namespace SrcMain

/-- Source: `static void print_usage()`, one line written to `std::cout`. -/
def print_usage (w : World) : World :=
  let w := w.enter Call.print_usage
  { w with out := w.out ++ ["Usage: chat <text>"] }

/-- Source: `class Session`, whose only data member is `m_history`. -/
structure Session where
  m_history : List Message
  deriving DecidableEq, Repr

/-- Source: `Session::store_history(history)`, a `void` function with an
empty body. -/
def Session.store_history (history : List Message) (w : World) : World :=
  let w := w.enter (Call.store_history history)
  w

/-- Source: `Session::load_history()`, declared to return
`std::vector<Message>`; the body between its braces is empty. -/
def Session.load_history (w : World) : Outcome (List Message) × World :=
  let w := w.enter Call.load_history
  (Outcome.fellOff, w)

/-- Source: the constructor `Session() { m_history = load_history(); }`: the
object exists only if `load_history` returned a value to assign. -/
def Session.new (w : World) : Outcome Session × World :=
  match Session.load_history w with
  | (Outcome.returned h, w) => (Outcome.returned { m_history := h }, w)
  | (Outcome.raised what, w) => (Outcome.raised what, w)
  | (Outcome.fellOff, w) => (Outcome.fellOff, w)

/-- Source: `Session::chat(prompt)`, declared to return `Response`; the body
holds one comment (join prompt with the history) and no statement. -/
def Session.chat (self : Session) (prompt : String) (w : World) :
    Outcome Response × Session × World :=
  let w := w.enter (Call.chat prompt)
  (Outcome.fellOff, self, w)

/-- Source: the loop of `main`,
`for (int i = 1; i < argc; ++i) { if (i == 1) prompt += " "; prompt += argv[i]; }`,
entered at index `i` with the text built so far. -/
def promptLoop (argv : List String) (i : Nat) (prompt : String) : String :=
  if i < argv.length then
    let prompt := if i == 1 then prompt ++ " " else prompt
    let prompt := prompt ++ argvAt argv i
    promptLoop argv (i + 1) prompt
  else
    prompt
termination_by argv.length - i

/-- Source: `std::string prompt;` followed by the loop started at `i = 1`. -/
def buildPrompt (argv : List String) : String :=
  promptLoop argv 1 ""

/-- Source: `int main(int argc, char* argv[])` of `src/main.cpp`: the usage
test with `exit(argc == 2)`, the prompt loop, `Session session;` and
`session.chat(prompt)`. -/
def main (argv : List String) (w : World) : Run :=
  let argc := argv.length
  if argc < 2 || strcmpZero (argvAt argv 1) "-h" || strcmpZero (argvAt argv 1) "--help" then
    let w := print_usage w
    { exit := Exit.status (if argc == 2 then 1 else 0), world := w }
  else
    let prompt := buildPrompt argv
    match Session.new w with
    | (Outcome.raised _, w) => { exit := Exit.terminated, world := w }
    | (Outcome.fellOff, w) => { exit := Exit.undefined, world := w }
    | (Outcome.returned session, w) =>
      match session.chat prompt w with
      | (Outcome.raised _, _, w) => { exit := Exit.terminated, world := w }
      | (Outcome.fellOff, _, w) => { exit := Exit.undefined, world := w }
      | (Outcome.returned _, _, w) => { exit := Exit.status 0, world := w }

end SrcMain

/-! ## Vocabulary of the specification -/

/-- The fence character, code point 96. -/
def tick : Char := Char.ofNat 96

/-- Scan for the delimiter of three fence characters, left to right and
without overlap; `run` is the number of fence characters just seen. -/
def countFencesFrom : List Char → Nat → Nat
  | [], _ => 0
  | c :: rest, run =>
    if c = tick then
      if run = 2 then 1 + countFencesFrom rest 0 else countFencesFrom rest (run + 1)
    else
      countFencesFrom rest 0

/-- Number of occurrences of the triple delimiter in a text. -/
def countFences (text : String) : Nat :=
  countFencesFrom text.data 0

/-- Plain concatenation of the arguments, with nothing between them. -/
def concatArgs : List String → String
  | [] => ""
  | a :: rest => a ++ concatArgs rest

/-- The atomicity contract of a chat turn, in the words of the specification:
either a response is returned and the history grew by the user message and
the assistant message, or the call failed and the history is what it was. -/
def ChatAtomic (old : List Message) (prompt : String)
    (out : Outcome Response) (new : List Message) : Prop :=
  (∃ r : Response, out = Outcome.returned r ∧
      new = old ++ [{ role := Role.USER, message := prompt },
                    { role := Role.ASSISTANT, message := r.content }]) ∨
  (∃ what : String, out = Outcome.raised what ∧ new = old)

/-! ## Evaluation lemmas -/

theorem concatArgs_length (args : List String) :
    (concatArgs args).length = (args.map String.length).sum := by
  induction args with
  | nil => rfl
  | cons a rest ih => simp [concatArgs, String.length_append, ih]

theorem srcsrc_promptLoop_from (argv : List String) (n i : Nat) (p : String)
    (hn : argv.length - i = n) (hi : 2 ≤ i) :
    SrcSrcMain.promptLoop argv i p = p ++ concatArgs (argv.drop i) := by
  induction n generalizing i p with
  | zero =>
    have hle : argv.length ≤ i := by omega
    rw [SrcSrcMain.promptLoop, if_neg (by omega), List.drop_eq_nil_of_le hle]
    simp [concatArgs]
  | succ n ih =>
    have hlt : i < argv.length := by omega
    have hne : (i == 1) = false := by
      simp only [beq_eq_false_iff_ne]; omega
    rw [SrcSrcMain.promptLoop, if_pos hlt]
    simp only [hne, Bool.false_eq_true, if_false]
    rw [ih (i + 1) _ (by omega) (by omega), List.drop_eq_getElem_cons hlt]
    simp [concatArgs, argvAt, List.getElem?_eq_getElem hlt, String.append_assoc]

theorem srcsrc_buildPrompt_cons (prog a : String) (rest : List String) :
    SrcSrcMain.buildPrompt (prog :: a :: rest) = " " ++ concatArgs (a :: rest) := by
  rw [SrcSrcMain.buildPrompt, SrcSrcMain.promptLoop, if_pos (by simp)]
  simp only [beq_self_eq_true, if_true]
  rw [srcsrc_promptLoop_from _ _ 2 _ rfl (by omega)]
  simp [concatArgs, argvAt, String.append_assoc]

theorem src_promptLoop_from (argv : List String) (n i : Nat) (p : String)
    (hn : argv.length - i = n) (hi : 2 ≤ i) :
    SrcMain.promptLoop argv i p = p ++ concatArgs (argv.drop i) := by
  induction n generalizing i p with
  | zero =>
    have hle : argv.length ≤ i := by omega
    rw [SrcMain.promptLoop, if_neg (by omega), List.drop_eq_nil_of_le hle]
    simp [concatArgs]
  | succ n ih =>
    have hlt : i < argv.length := by omega
    have hne : (i == 1) = false := by
      simp only [beq_eq_false_iff_ne]; omega
    rw [SrcMain.promptLoop, if_pos hlt]
    simp only [hne, Bool.false_eq_true, if_false]
    rw [ih (i + 1) _ (by omega) (by omega), List.drop_eq_getElem_cons hlt]
    simp [concatArgs, argvAt, List.getElem?_eq_getElem hlt, String.append_assoc]

theorem src_buildPrompt_cons (prog a : String) (rest : List String) :
    SrcMain.buildPrompt (prog :: a :: rest) = " " ++ concatArgs (a :: rest) := by
  rw [SrcMain.buildPrompt, SrcMain.promptLoop, if_pos (by simp)]
  simp only [beq_self_eq_true, if_true]
  rw [src_promptLoop_from _ _ 2 _ rfl (by omega)]
  simp [concatArgs, argvAt, String.append_assoc]

/-- The usage branch of `src/src/main.cpp`: taken with no argument or with a
first argument `-h` or `--help`. -/
theorem srcsrc_main_usage (prog : String) (args : List String)
    (w : World) (h : args = [] ∨ args.head? = some "-h" ∨ args.head? = some "--help") :
    SrcSrcMain.main (prog :: args) w =
      { exit := Exit.status (if args.length = 1 then 1 else 0),
        world := SrcSrcMain.print_usage w } := by
  cases args with
  | nil => simp [SrcSrcMain.main]
  | cons a rest =>
    have ha : a = "-h" ∨ a = "--help" := by simpa using h
    rcases ha with ha | ha <;> subst ha <;> simp [SrcSrcMain.main, strcmpZero, argvAt]

/-- The usage branch of `src/main.cpp`. -/
theorem src_main_usage (prog : String) (args : List String)
    (w : World) (h : args = [] ∨ args.head? = some "-h" ∨ args.head? = some "--help") :
    SrcMain.main (prog :: args) w =
      { exit := Exit.status (if args.length = 1 then 1 else 0),
        world := SrcMain.print_usage w } := by
  cases args with
  | nil => simp [SrcMain.main]
  | cons a rest =>
    have ha : a = "-h" ∨ a = "--help" := by simpa using h
    rcases ha with ha | ha <;> subst ha <;> simp [SrcMain.main, strcmpZero, argvAt]

/-- Past the usage test `src/src/main.cpp` constructs the session, and the run
ends inside the constructor, where `load_history` returns nothing. -/
theorem srcsrc_main_past_usage (prog a : String) (rest : List String) (w : World)
    (hh : a ≠ "-h") (hhelp : a ≠ "--help") :
    SrcSrcMain.main (prog :: a :: rest) w =
      { exit := Exit.undefined, world := w.enter Call.load_history } := by
  simp [SrcSrcMain.main, strcmpZero, argvAt, SrcSrcMain.Session.new,
    SrcSrcMain.Session.load_history, hh, hhelp]

/-- Past the usage test `src/main.cpp` builds the prompt and constructs the
session, and the run ends inside the constructor. -/
theorem src_main_past_usage (prog a : String) (rest : List String) (w : World)
    (hh : a ≠ "-h") (hhelp : a ≠ "--help") :
    SrcMain.main (prog :: a :: rest) w =
      { exit := Exit.undefined, world := w.enter Call.load_history } := by
  simp [SrcMain.main, strcmpZero, argvAt, SrcMain.Session.new,
    SrcMain.Session.load_history, hh, hhelp]

/-! ## The code block extractor -/

/-- C1 (evaluation at the failing input): the text of one fenced `bash` region
holds two delimiters, that is one opening and one closing fence, and the text
of two fenced regions holds four, yet `extract_code_blocks` returns a vector
with no element for both, from any state. -/
theorem extract_code_blocks_drops_fenced_regions :
    countFences "```bash\necho hi\n```" = 2 ∧
    countFences "```bash\nls\n```\ntext\n```bash\npwd\n```" = 4 ∧
    (∀ w : World, (SrcSrcMain.extract_code_blocks "```bash\necho hi\n```" w).1
        = Outcome.returned []) ∧
    (∀ w : World,
      (SrcSrcMain.extract_code_blocks "```bash\nls\n```\ntext\n```bash\npwd\n```" w).1
        = Outcome.returned []) ∧
    ([] : List String).length ≠ 1 := by
  refine ⟨by decide, by decide, fun _ => rfl, fun _ => rfl, by decide⟩

/-- C7: for every text with no triple delimiter, the empty text included,
`extract_code_blocks` returns the empty sequence. -/
theorem extract_code_blocks_no_fence (text : String) (w : World)
    (_h : countFences text = 0) :
    (SrcSrcMain.extract_code_blocks text w).1 = Outcome.returned [] :=
  rfl

/-- C7 at the empty text and at a text without any fence character. -/
theorem extract_code_blocks_no_fence_witness :
    (countFences "" = 0 ∧
      (SrcSrcMain.extract_code_blocks "" (World.start [])).1 = Outcome.returned []) ∧
    (countFences "ls -la" = 0 ∧
      (SrcSrcMain.extract_code_blocks "ls -la" (World.start [])).1 = Outcome.returned []) :=
  ⟨⟨by decide, extract_code_blocks_no_fence "" (World.start []) (by decide)⟩,
   ⟨by decide, extract_code_blocks_no_fence "ls -la" (World.start []) (by decide)⟩⟩

/-- C8: for every text with exactly one occurrence of the triple delimiter (an
opening fence that is never closed), `extract_code_blocks` returns the empty
sequence. -/
theorem extract_code_blocks_unterminated (text : String) (w : World)
    (_h : countFences text = 1) :
    (SrcSrcMain.extract_code_blocks text w).1 = Outcome.returned [] :=
  rfl

/-- C8 at an opening `bash` fence that is never closed. -/
theorem extract_code_blocks_unterminated_witness :
    countFences "```bash\nls" = 1 ∧
    (SrcSrcMain.extract_code_blocks "```bash\nls" (World.start [])).1 = Outcome.returned [] :=
  ⟨by decide, extract_code_blocks_unterminated "```bash\nls" (World.start []) (by decide)⟩

/-! ## The session -/

/-- C2 (evaluation, every input): in both files `Session::chat` ends with no
`return` statement executed and no exception, and leaves `m_history` as it
was; so it meets neither branch of the atomicity contract, for any history,
prompt and state, in particular for the empty history and the prompt `hi`. -/
theorem chat_breaks_atomicity :
    (∀ (h : List Message) (prompt : String) (w : World),
      (SrcSrcMain.Session.chat { m_history := h } prompt w).1 = Outcome.fellOff ∧
      (SrcSrcMain.Session.chat { m_history := h } prompt w).2.1.m_history = h ∧
      ¬ ChatAtomic h prompt
          (SrcSrcMain.Session.chat { m_history := h } prompt w).1
          (SrcSrcMain.Session.chat { m_history := h } prompt w).2.1.m_history) ∧
    (∀ (h : List Message) (prompt : String) (w : World),
      (SrcMain.Session.chat { m_history := h } prompt w).1 = Outcome.fellOff ∧
      (SrcMain.Session.chat { m_history := h } prompt w).2.1.m_history = h ∧
      ¬ ChatAtomic h prompt
          (SrcMain.Session.chat { m_history := h } prompt w).1
          (SrcMain.Session.chat { m_history := h } prompt w).2.1.m_history) ∧
    ¬ ChatAtomic [] "hi"
        (SrcSrcMain.Session.chat { m_history := [] } "hi" (World.start [])).1
        (SrcSrcMain.Session.chat { m_history := [] } "hi" (World.start [])).2.1.m_history := by
  have key : ∀ (h h2 : List Message) (prompt : String),
      ¬ ChatAtomic h prompt Outcome.fellOff h2 := by
    intro h h2 prompt hc
    rcases hc with ⟨r, hr, _⟩ | ⟨e, he, _⟩
    · cases hr
    · cases he
  exact ⟨fun h prompt w => ⟨rfl, rfl, key _ _ _⟩, fun h prompt w => ⟨rfl, rfl, key _ _ _⟩,
    key _ _ _⟩

/-- C3 (evaluation, every input): in both files `store_history` leaves the
files on disk as they were, and `load_history` after it ends with no `return`
statement executed, so it does not return the stored sequence, whatever the
sequence; in particular for the one-message history `[user: hi]` and for the
empty history. -/
theorem store_then_load_returns_nothing :
    (∀ (h : List Message) (w : World),
      (SrcSrcMain.Session.store_history h w).files = w.files ∧
      (SrcSrcMain.Session.load_history (SrcSrcMain.Session.store_history h w)).1
        = Outcome.fellOff ∧
      (SrcSrcMain.Session.load_history (SrcSrcMain.Session.store_history h w)).1
        ≠ Outcome.returned h) ∧
    (∀ (h : List Message) (w : World),
      (SrcMain.Session.store_history h w).files = w.files ∧
      (SrcMain.Session.load_history (SrcMain.Session.store_history h w)).1
        = Outcome.fellOff ∧
      (SrcMain.Session.load_history (SrcMain.Session.store_history h w)).1
        ≠ Outcome.returned h) ∧
    (SrcSrcMain.Session.load_history
        (SrcSrcMain.Session.store_history [{ role := Role.USER, message := "hi" }]
          (World.start []))).1
      ≠ Outcome.returned [{ role := Role.USER, message := "hi" }] ∧
    (SrcSrcMain.Session.load_history
        (SrcSrcMain.Session.store_history [] (World.start []))).1
      ≠ Outcome.returned [] := by
  refine ⟨fun h w => ⟨rfl, rfl, ?_⟩, fun h w => ⟨rfl, rfl, ?_⟩, ?_, ?_⟩ <;>
    simp [SrcSrcMain.Session.load_history, SrcMain.Session.load_history]

/-! ## The entry points -/

/-- C4 (evaluation at the failing input): for the arguments `list files` the
loop of both files builds the prompt `" listfiles"`, which is not the text
`"list files"`, and for the single argument `hello` it builds `" hello"`; the
lines of `src/src/main.cpp` after the constructor hand exactly that string to
`Session::chat`; and no run of either `main` on `list files` enters
`Session::chat` with `"list files"`. -/
theorem main_prompt_for_list_files :
    SrcSrcMain.buildPrompt ["chat", "list", "files"] = " listfiles" ∧
    SrcMain.buildPrompt ["chat", "list", "files"] = " listfiles" ∧
    SrcSrcMain.buildPrompt ["chat", "hello"] = " hello" ∧
    SrcMain.buildPrompt ["chat", "hello"] = " hello" ∧
    " listfiles" ≠ "list files" ∧ " hello" ≠ "hello" ∧
    (∀ (session : SrcSrcMain.Session) (w : World),
      (SrcSrcMain.mainWithSession ["chat", "list", "files"] session w).world.calls
        = w.calls ++ [Call.chat " listfiles"]) ∧
    (∀ files : List (String × String),
      Call.chat "list files" ∉
        (SrcSrcMain.main ["chat", "list", "files"] (World.start files)).world.calls) ∧
    (∀ files : List (String × String),
      Call.chat "list files" ∉
        (SrcMain.main ["chat", "list", "files"] (World.start files)).world.calls) := by
  have e1 : SrcSrcMain.buildPrompt ["chat", "list", "files"] = " listfiles" := by
    rw [srcsrc_buildPrompt_cons]; decide
  refine ⟨e1, ?_, ?_, ?_, by decide, by decide, ?_, ?_, ?_⟩
  · rw [src_buildPrompt_cons]; decide
  · rw [srcsrc_buildPrompt_cons]; decide
  · rw [src_buildPrompt_cons]; decide
  · intro session w
    simp [SrcSrcMain.mainWithSession, strcmpZero, argvAt, SrcSrcMain.Session.chat,
      World.enter, e1]
  · intro files
    rw [srcsrc_main_past_usage _ _ _ _ (by decide) (by decide)]
    simp [World.enter, World.start]
  · intro files
    rw [src_main_past_usage _ _ _ _ (by decide) (by decide)]
    simp [World.enter, World.start]

/-- C5 (evaluation at the failing input): run with the lone argument `reset`,
`main` of `src/src/main.cpp` first constructs the session, whose constructor
calls `load_history`, and that function ends with no `return` statement; the
run ends there as undefined, with `load_history` the only function entered, so
`reset_history` is not entered and the exit status is not 0.  The run on
`reset now` ends at the same point, before any prompt reaches
`Session::chat`.  The lines after the constructor are written to do what is
intended: run with a constructed session they enter `reset_history` alone and
return 0 for the lone `reset`, and hand `" resetnow"` to `Session::chat` for
`reset now`. -/
theorem main_reset_dispatch :
    (∀ files : List (String × String),
      SrcSrcMain.main ["chat", "reset"] (World.start files)
        = { exit := Exit.undefined, world := (World.start files).enter Call.load_history }) ∧
    (∀ files : List (String × String),
      (SrcSrcMain.main ["chat", "reset"] (World.start files)).world.calls
        = [Call.load_history] ∧
      Call.reset_history ∉
        (SrcSrcMain.main ["chat", "reset"] (World.start files)).world.calls ∧
      (SrcSrcMain.main ["chat", "reset"] (World.start files)).exit ≠ Exit.status 0) ∧
    (∀ files : List (String × String),
      (SrcSrcMain.main ["chat", "reset", "now"] (World.start files)).world.calls
        = [Call.load_history] ∧
      (SrcSrcMain.main ["chat", "reset", "now"] (World.start files)).exit
        = Exit.undefined) ∧
    (∀ (session : SrcSrcMain.Session) (w : World),
      SrcSrcMain.mainWithSession ["chat", "reset"] session w
        = { exit := Exit.status 0, world := w.enter Call.reset_history }) ∧
    (∀ (session : SrcSrcMain.Session) (w : World),
      (SrcSrcMain.mainWithSession ["chat", "reset", "now"] session w).world.calls
        = w.calls ++ [Call.chat " resetnow"]) := by
  have e1 : SrcSrcMain.buildPrompt ["chat", "reset", "now"] = " resetnow" := by
    rw [srcsrc_buildPrompt_cons]; decide
  refine ⟨?_, ?_, ?_, ?_, ?_⟩
  · intro files
    rw [srcsrc_main_past_usage _ _ _ _ (by decide) (by decide)]
  · intro files
    rw [srcsrc_main_past_usage _ _ _ _ (by decide) (by decide)]
    simp [World.enter, World.start]
  · intro files
    rw [srcsrc_main_past_usage _ _ _ _ (by decide) (by decide)]
    simp [World.enter, World.start]
  · intro session w
    simp [SrcSrcMain.mainWithSession, strcmpZero, argvAt, SrcSrcMain.Session.reset_history]
  · intro session w
    simp [SrcSrcMain.mainWithSession, strcmpZero, argvAt, SrcSrcMain.Session.chat,
      World.enter, e1]

/-- C6: in both files, for the empty argument list and for every argument
list whose first word is `-h` or `--help`, the run enters `print_usage` and
no other function (so none of `load_history`, `Session::chat`,
`reset_history`, `store_history`, `extract_code_blocks`), writes the usage
line, leaves the files alone, and ends by `exit`. -/
theorem usage_path_enters_only_print_usage (prog : String) (args : List String)
    (files : List (String × String))
    (h : args = [] ∨ args.head? = some "-h" ∨ args.head? = some "--help") :
    ((SrcSrcMain.main (prog :: args) (World.start files)).world.calls = [Call.print_usage] ∧
      (SrcSrcMain.main (prog :: args) (World.start files)).world.out
        = ["Usage: chat <text>"] ∧
      (SrcSrcMain.main (prog :: args) (World.start files)).world.files = files ∧
      ∃ n, (SrcSrcMain.main (prog :: args) (World.start files)).exit = Exit.status n) ∧
    ((SrcMain.main (prog :: args) (World.start files)).world.calls = [Call.print_usage] ∧
      (SrcMain.main (prog :: args) (World.start files)).world.out
        = ["Usage: chat <text>"] ∧
      (SrcMain.main (prog :: args) (World.start files)).world.files = files ∧
      ∃ n, (SrcMain.main (prog :: args) (World.start files)).exit = Exit.status n) := by
  rw [srcsrc_main_usage prog args _ h, src_main_usage prog args _ h]
  simp [SrcSrcMain.print_usage, SrcMain.print_usage, World.enter, World.start]

/-- C6 at `--help extra` and at the empty argument list. -/
theorem usage_path_enters_only_print_usage_witness :
    (SrcSrcMain.main ["chat", "--help", "extra"] (World.start [])).world.calls
      = [Call.print_usage] ∧
    (SrcMain.main ["chat"] (World.start [])).world.calls = [Call.print_usage] :=
  ⟨(usage_path_enters_only_print_usage "chat" ["--help", "extra"] [] (by decide)).1.1,
   (usage_path_enters_only_print_usage "chat" [] [] (by decide)).2.1⟩

/-- C9: for every non-empty argument list, the loop of both files builds one
space followed by the plain concatenation of the arguments, with nothing
between them; both files build the same string; and its length is one more
than the sum of the argument lengths. -/
theorem prompt_is_space_then_concat (prog : String) (args : List String)
    (hne : args ≠ []) :
    SrcSrcMain.buildPrompt (prog :: args) = " " ++ concatArgs args ∧
    SrcMain.buildPrompt (prog :: args) = SrcSrcMain.buildPrompt (prog :: args) ∧
    (SrcSrcMain.buildPrompt (prog :: args)).length = 1 + (args.map String.length).sum := by
  cases args with
  | nil => exact absurd rfl hne
  | cons a rest =>
    refine ⟨srcsrc_buildPrompt_cons prog a rest, ?_, ?_⟩
    · rw [srcsrc_buildPrompt_cons, src_buildPrompt_cons]
    · rw [srcsrc_buildPrompt_cons, String.length_append, concatArgs_length]
      rfl

/-- C9 at the arguments `list files`: the prompt is `" listfiles"`, ten
characters. -/
theorem prompt_is_space_then_concat_witness :
    SrcSrcMain.buildPrompt ["chat", "list", "files"] = " listfiles" ∧
    SrcMain.buildPrompt ["chat", "list", "files"] = " listfiles" ∧
    (SrcSrcMain.buildPrompt ["chat", "list", "files"]).length = 10 := by
  have h := prompt_is_space_then_concat "chat" ["list", "files"] (by decide)
  refine ⟨h.1.trans (by decide), (h.2.1.trans h.1).trans (by decide), h.2.2.trans (by decide)⟩

/-- C10: on the usage path of both files (no argument, or first word `-h` or
`--help`) the exit status is the value of `argc == 2`: 1 when exactly one
argument was given, 0 when none was given or when more follow. -/
theorem usage_exit_status (prog : String) (args : List String) (w : World)
    (h : args = [] ∨ args.head? = some "-h" ∨ args.head? = some "--help") :
    (SrcSrcMain.main (prog :: args) w).exit
      = Exit.status (if (prog :: args).length = 2 then 1 else 0) ∧
    (SrcMain.main (prog :: args) w).exit
      = Exit.status (if (prog :: args).length = 2 then 1 else 0) ∧
    (args.length = 1 → (SrcSrcMain.main (prog :: args) w).exit = Exit.status 1 ∧
      (SrcMain.main (prog :: args) w).exit = Exit.status 1) ∧
    (args.length ≠ 1 → (SrcSrcMain.main (prog :: args) w).exit = Exit.status 0 ∧
      (SrcMain.main (prog :: args) w).exit = Exit.status 0) := by
  rw [srcsrc_main_usage prog args w h, src_main_usage prog args w h]
  refine ⟨?_, ?_, ?_, ?_⟩
  · simp
  · simp
  · intro h1; simp [h1]
  · intro h1; simp [h1]

/-- C10 at a lone `-h` (status 1), at no argument (status 0) and at `--help`
followed by another word (status 0). -/
theorem usage_exit_status_witness :
    (SrcSrcMain.main ["chat", "-h"] (World.start [])).exit = Exit.status 1 ∧
    (SrcSrcMain.main ["chat"] (World.start [])).exit = Exit.status 0 ∧
    (SrcMain.main ["chat", "--help", "me"] (World.start [])).exit = Exit.status 0 :=
  ⟨((usage_exit_status "chat" ["-h"] (World.start []) (by decide)).2.2.1 rfl).1,
   ((usage_exit_status "chat" [] (World.start []) (by decide)).2.2.2 (by decide)).1,
   ((usage_exit_status "chat" ["--help", "me"] (World.start []) (by decide)).2.2.2
      (by decide)).2⟩

end CliChat
